import Mathlib

/-
Verification of the Bybit grid-trading bot against its specification.

The development shallowly embeds the Python modules:
  * grid.py    — pure grid computations (build_grid, calculate_initial_orders,
                 calculate_mirror_order, find_grid_level);
  * runner.py  — the GridBot order-execution state machine
                 (handle_order_execution, stop);
  * bybit_api.py — request-signing payload construction (_generate_signature);
  * db.py      — the fills ledger as an append-only list (add_trade).

Prices and quantities are modelled as rationals (the Python code uses floats;
every concrete input appearing in the claims is exactly representable and no
claim-relevant behaviour depends on float rounding except np.round, which is
modelled with its documented round-half-to-even semantics).  numpy exceptions
(argmin of an empty array) and Python exceptions (float() on a malformed
string, sqlite/API errors) are modelled with Option/Except.
-/

namespace GridBybit

/-- Order side, the "side" field of the Python order dictionaries. -/
inductive Side
  | Buy
  | Sell
deriving DecidableEq, Repr

/-- Absolute value on ℚ written with an executable if, modelling np.abs. -/
def ratAbs (x : ℚ) : ℚ := if x < 0 then -x else x

/-- Index and value of the first occurrence of the minimum of |x - price|
over the list: the documented semantics of np.abs(grid - price).argmin()
(ties resolve to the earliest index).  The head wins a tie against the best
of the tail because it comes first. -/
def argminAbs (price : ℚ) : List ℚ → Option (ℕ × ℚ)
  | [] => none
  | x :: xs =>
    match argminAbs price xs with
    | none => some (0, x)
    | some (j, bv) =>
      if ratAbs (x - price) ≤ ratAbs (bv - price) then some (0, x)
      else some (j + 1, bv)

/-- Embedding of grid.find_grid_level (grid.py:146-157):
np.abs(grid_prices - price).argmin().  Returns none on the empty array, where
numpy raises (the caller calculate_mirror_order catches that exception). -/
def find_grid_level (price : ℚ) (gridPrices : List ℚ) : Option ℕ :=
  (argminAbs price gridPrices).map (fun r => r.1)

/-- An order produced by calculate_initial_orders: side, price, qty
(order_type is always "Limit" and is omitted). -/
structure InitOrder where
  side : Side
  price : ℚ
  qty : ℚ
deriving DecidableEq, Repr

/-- Embedding of grid.calculate_initial_orders (grid.py:53-84): one pass over
the grid prices; price < mid appends a Buy, price > mid appends a Sell,
price = mid is skipped. -/
def calculate_initial_orders (gridPrices : List ℚ) (midPrice qty : ℚ) :
    List InitOrder × List InitOrder :=
  match gridPrices with
  | [] => ([], [])
  | p :: ps =>
    let rest := calculate_initial_orders ps midPrice qty
    if p < midPrice then (⟨Side.Buy, p, qty⟩ :: rest.1, rest.2)
    else if p > midPrice then (rest.1, ⟨Side.Sell, p, qty⟩ :: rest.2)
    else rest

/-- View of a filled order as consumed by calculate_mirror_order: the "side"
and (successfully parsed) "price" entries of the filled_order dict. -/
structure FilledView where
  side : Side
  price : ℚ
deriving DecidableEq, Repr

/-- View of an active order as consumed by calculate_mirror_order's conflict
scan: its "side" and "price" entries. -/
structure OrderView where
  side : Side
  price : ℚ
deriving DecidableEq, Repr

/-- A mirror order as returned by calculate_mirror_order (order_type is always
"Limit" and is omitted). -/
structure MirrorOrder where
  side : Side
  price : ℚ
  qty : ℚ
deriving DecidableEq, Repr

/-- The mirror side chosen at grid.py:108-115: a Buy fill mirrors to a Sell,
a Sell fill mirrors to a Buy. -/
def mirrorSide : Side → Side
  | Side.Buy => Side.Sell
  | Side.Sell => Side.Buy

/-- The target index chosen at grid.py:108-115: idx+1 for a Buy fill,
idx-1 for a Sell fill (as an integer, so that -1 is representable). -/
def mirrorTargetIdx (side : Side) (idx : ℕ) : ℤ :=
  match side with
  | Side.Buy => (idx : ℤ) + 1
  | Side.Sell => (idx : ℤ) - 1

/-- The conflict scan of grid.py:125-130: the for-loop over active_orders
that returns None as soon as some order matches the mirror (price, side)
pair.  (The Python guard "if active_orders:" only skips the loop when the
list is empty, which the empty case of this recursion already covers.) -/
def hasConflict (mirrorPrice : ℚ) (mSide : Side) : List OrderView → Bool
  | [] => false
  | o :: rest =>
    if o.price = mirrorPrice ∧ o.side = mSide then true
    else hasConflict mirrorPrice mSide rest

/-- Embedding of grid.calculate_mirror_order (grid.py:86-144).  The body is
wrapped in try/except returning None; with well-typed inputs the only
exception source is argmin on an empty grid, modelled by find_grid_level
returning none. -/
def calculate_mirror_order (filledOrder : FilledView) (gridPrices : List ℚ)
    (qty : ℚ) (activeOrders : List OrderView) : Option MirrorOrder :=
  match find_grid_level filledOrder.price gridPrices with
  | none => none
  | some idx =>
    let mSide := mirrorSide filledOrder.side
    let idxNew := mirrorTargetIdx filledOrder.side idx
    if idxNew < 0 ∨ (gridPrices.length : ℤ) ≤ idxNew then none
    else
      let mirrorPrice := gridPrices.getD idxNew.toNat 0
      if hasConflict mirrorPrice mSide activeOrders then none
      else some { side := mSide, price := mirrorPrice, qty := qty }

/-- Round a rational to the nearest integer, ties to even: the rounding rule
np.round is documented to use. -/
def roundHalfEvenZ (x : ℚ) : ℤ :=
  let f := ⌊x⌋
  let r := x - (f : ℚ)
  if r < 1/2 then f
  else if 1/2 < r then f + 1
  else if f % 2 = 0 then f else f + 1

/-- Embedding of np.round(x, d): round half-to-even at d decimal digits. -/
def np_round (x : ℚ) (d : ℕ) : ℚ :=
  (roundHalfEvenZ (x * (10 : ℚ) ^ d) : ℚ) / (10 : ℚ) ^ d

/-- The precision tier selected from the price range at grid.py:37-48. -/
def roundDecimals (priceRange : ℚ) : ℕ :=
  if priceRange > 10000 then 0
  else if priceRange > 1000 then 1
  else if priceRange > 100 then 2
  else 4

/-- The i-th point of np.linspace(low, high, grids+1) (grid.py:32):
low + i * (high - low) / grids.  In exact arithmetic the last point
(i = grids) equals high, matching numpy's exact endpoint. -/
def linspacePoint (low high : ℚ) (grids : ℕ) (i : ℕ) : ℚ :=
  low + (i : ℚ) * ((high - low) / (grids : ℚ))

/-- Embedding of grid.build_grid (grid.py:12-51): validate the bounds and the
level count (ValueError modelled as Except.error), build the grids+1 linearly
spaced points and round every point at the tier selected from high - low. -/
def build_grid (low high : ℚ) (grids : ℕ) : Except String (List ℚ) :=
  if low ≥ high then Except.error "low must be below high"
  else if grids < 2 then Except.error "at least 2 grids required"
  else
    let pts := (List.range (grids + 1)).map (linspacePoint low high grids)
    Except.ok (pts.map (fun x => np_round x (roundDecimals (high - low))))

/-- The six-level grid used throughout the spec's examples:
build_grid 1000 2000 5 evaluates to exactly this list. -/
def grid6 : List ℚ := [1000, 1200, 1400, 1600, 1800, 2000]

/-! Embedding of the GridBot order-execution state machine (runner.py). -/

/-- Status of an order in GridBot.active_orders ("New" or "Filled"; runner.py
never stores any other status in the table). -/
inductive OrderStatus
  | New
  | Filled
deriving DecidableEq, Repr

/-- A value of the GridBot.active_orders dictionary (runner.py:140-146):
symbol, side, price, qty and status. -/
structure ActiveOrder where
  symbol : String
  side : Side
  price : ℚ
  qty : ℚ
  status : OrderStatus
deriving DecidableEq, Repr

/-- A row of the fills table as written by GridBotDB.add_trade
(db.py:131-162): order_id, symbol, side, price, qty (timestamps omitted). -/
structure Fill where
  symbol : String
  side : Side
  price : ℚ
  qty : ℚ
  orderId : String
deriving DecidableEq, Repr

/-- Lookup in a Python dict modelled as an insertion-ordered association
list with unique keys: the value at the first matching key. -/
def dictLookup {α : Type} (k : String) : List (String × α) → Option α
  | [] => none
  | kv :: rest => if kv.1 = k then some kv.2 else dictLookup k rest

/-- Assignment d[k] = v on a Python dict modelled as an insertion-ordered
association list: replaces the value in place when the key exists, otherwise
appends the new binding at the end. -/
def dictSet {α : Type} (k : String) (v : α) : List (String × α) → List (String × α)
  | [] => [(k, v)]
  | kv :: rest => if kv.1 = k then (k, v) :: rest else kv :: dictSet k v rest

/-- The list comprehension at runner.py:377: the active orders whose status
is "New", projected to the (side, price) view calculate_mirror_order reads. -/
def activeNewViews : List (String × ActiveOrder) → List OrderView
  | [] => []
  | kv :: rest =>
    if kv.2.status = OrderStatus.New then
      { side := kv.2.side, price := kv.2.price } :: activeNewViews rest
    else activeNewViews rest

/-- The in-memory state of a GridBot relevant to order execution:
symbol, grid ladder, per-order qty, test flag, the active-order table and
the fills ledger (the GridBotDB fills table as an append-only list),
plus the running flag. -/
structure BotState where
  symbol : String
  gridPrices : List ℚ
  qty : ℚ
  testMode : Bool
  activeOrders : List (String × ActiveOrder)
  fills : List Fill
  isRunning : Bool
deriving DecidableEq, Repr

/-- An order-execution event as consumed by handle_order_execution
(the filled_order dict).  A none field models a missing key ("order_id")
or a string on which float() raises ("price"/"qty"). -/
structure OrderEvent where
  orderId : Option String
  side : Side
  price : Option ℚ
  qty : Option ℚ
deriving DecidableEq, Repr

/-- Outcome of the api.place_order call for the mirror order: the call can
raise (network failure after retries exhaust), or return a response with a
retCode and, for retCode 0, the exchange-assigned orderId. -/
inductive ApiOutcome
  | raised
  | returned (retCode : ℤ) (orderId : String)
deriving DecidableEq, Repr

/-- Oracle for the effectful calls made inside one handle_order_execution
call: whether db.add_trade succeeds, and what api.place_order does. -/
structure Effects where
  addTradeOk : Bool
  place : ApiOutcome
deriving DecidableEq, Repr

/-- The status update at runner.py:354:
self.active_orders[order_id]["status"] = "Filled". -/
def markFilledState (s : BotState) (oid : String) (ord : ActiveOrder) : BotState :=
  { s with activeOrders := dictSet oid { ord with status := OrderStatus.Filled } s.activeOrders }

/-- The db.add_trade call at runner.py:364-370 on the success path: one row
appended to the fills table. -/
def recordFillState (s : BotState) (side : Side) (p q : ℚ) (oid : String) : BotState :=
  { s with fills := s.fills ++
      [{ symbol := s.symbol, side := side, price := p, qty := q, orderId := oid }] }

/-- The active-order table entry built for a placed mirror order
(runner.py:397-403 and runner.py:410-416). -/
def mirrorEntry (s : BotState) (m : MirrorOrder) : ActiveOrder :=
  { symbol := s.symbol, side := m.side, price := m.price, qty := m.qty,
    status := OrderStatus.New }

/-- The mirror-placement tail of handle_order_execution (runner.py:380-417):
given the computed mirror order (none or some), return unchanged, or place
it — in test mode under the key "test_mirror_" + order_id, in live mode via
api.place_order, adding the entry only on retCode 0 and propagating a raise
from the API call.  The list accumulates the entries added to the table. -/
def placeMirrorStep (fx : Effects) (oid : String) (s2 : BotState) :
    Option MirrorOrder →
      Except (String × BotState × List ActiveOrder) (BotState × List ActiveOrder)
  | none => Except.ok (s2, [])
  | some m =>
    if s2.testMode then
      Except.ok ({ s2 with activeOrders := dictSet ("test_mirror_" ++ oid) (mirrorEntry s2 m) s2.activeOrders },
        [mirrorEntry s2 m])
    else
      match fx.place with
      | ApiOutcome.raised => Except.error ("place_order raised", s2, [])
      | ApiOutcome.returned retCode newId =>
        if retCode = 0 then
          Except.ok ({ s2 with activeOrders := dictSet newId (mirrorEntry s2 m) s2.activeOrders },
            [mirrorEntry s2 m])
        else Except.ok (s2, [])

/-- The body of GridBot.handle_order_execution (runner.py:345-417), i.e. the
code inside the try block.  Except.error models an exception reaching the
except clause and carries the partially mutated state (Python keeps
mutations made before the raise).  The second component is the list of
mirror orders added to the active-order table by this call (the table
insertions at runner.py:397 and runner.py:410). -/
def handle_order_execution_body (e : OrderEvent) (fx : Effects) (s : BotState) :
    Except (String × BotState × List ActiveOrder) (BotState × List ActiveOrder) :=
  match e.orderId with
  | none => Except.ok (s, [])
  | some oid =>
    match dictLookup oid s.activeOrders with
    | none => Except.ok (s, [])
    | some ord =>
      let s1 : BotState := markFilledState s oid ord
      match e.price, e.qty with
      | some p, some q =>
        if fx.addTradeOk then
          let s2 : BotState := recordFillState s1 e.side p q oid
          placeMirrorStep fx oid s2
            (calculate_mirror_order { side := e.side, price := p } s2.gridPrices s2.qty
              (activeNewViews s2.activeOrders))
        else Except.error ("db add_trade raised", s1, [])
      | _, _ => Except.error ("float() raised", s1, [])

/-- GridBot.handle_order_execution as its caller observes it: the try/except
Exception wrapper at runner.py:345 and runner.py:419-420 turns every
exception from the body into a logged normal return, keeping the mutations
made before the raise. -/
def handle_order_execution_run (e : OrderEvent) (fx : Effects) (s : BotState) :
    Except String BotState :=
  match handle_order_execution_body e fx s with
  | Except.ok (s', _) => Except.ok s'
  | Except.error (_, s', _) => Except.ok s'

/-- The state after one handle_order_execution call. -/
def handle_order_execution (e : OrderEvent) (fx : Effects) (s : BotState) : BotState :=
  match handle_order_execution_body e fx s with
  | Except.ok (s', _) => s'
  | Except.error (_, s', _) => s'

/-- The mirror orders added to the active-order table by one
handle_order_execution call. -/
def mirrorsAdded (e : OrderEvent) (fx : Effects) (s : BotState) : List ActiveOrder :=
  match handle_order_execution_body e fx s with
  | Except.ok (_, t) => t
  | Except.error (_, _, t) => t

/-- The keys of the active orders with status "New" (the orders for which
GridBot.stop issues cancel requests at runner.py:437-443). -/
def newOrderIds : List (String × ActiveOrder) → List String
  | [] => []
  | kv :: rest =>
    if kv.2.status = OrderStatus.New then kv.1 :: newOrderIds rest
    else newOrderIds rest

/-- Embedding of GridBot.stop (runner.py:422-457).  Returns the state after
the call together with the list of order ids for which a cancel request was
issued.  A failing cancel is caught per-order and the loop continues, so the
request list does not depend on cancel outcomes; in test mode no cancel is
issued; the active-order table itself is never mutated. -/
def stop (s : BotState) : BotState × List String :=
  if s.isRunning = false then (s, [])
  else
    let s' : BotState := { s with isRunning := false }
    if s.testMode then (s', [])
    else (s', newOrderIds s.activeOrders)

/-! Embedding of the request-signing logic of bybit_api.py.  Request
parameters are modelled as association lists of strings (every value the
client sends in signed requests is a string-valued field). -/

/-- Lexicographic comparison of character lists by code point: how Python
compares strings when sorting dict items. -/
def charListLt : List Char → List Char → Bool
  | [], [] => false
  | [], _ :: _ => true
  | _ :: _, [] => false
  | c :: cs, d :: ds =>
    if c.toNat < d.toNat then true
    else if d.toNat < c.toNat then false
    else charListLt cs ds

/-- Key order used by sorted(params.items()): at-most comparison of the
keys by code point. -/
def keyLe (a b : String) : Bool := charListLt a.toList b.toList || a == b

/-- Insert one parameter into a key-sorted parameter list (the sorting step
of sorted(params.items()) at bybit_api.py:70; keys are unique, so comparing
keys suffices). -/
def insertParam (x : String × String) :
    List (String × String) → List (String × String)
  | [] => [x]
  | y :: ys =>
    if keyLe x.1 y.1 then x :: y :: ys
    else y :: insertParam x ys

/-- The parameters sorted lexicographically by key: dict(sorted(params.items())). -/
def sortParams : List (String × String) → List (String × String)
  | [] => []
  | x :: xs => insertParam x (sortParams xs)

/-- Hex digit, uppercase (percent-encoding uses uppercase hex). -/
def hexDigitUpper (n : ℕ) : Char :=
  if n < 10 then Char.ofNat (48 + n) else Char.ofNat (55 + n)

/-- Hex digit, lowercase (hexdigest() uses lowercase hex). -/
def hexDigitLower (n : ℕ) : Char :=
  if n < 10 then Char.ofNat (48 + n) else Char.ofNat (87 + n)

/-- UTF-8 encoding of one character as a byte list (str.encode("utf-8")). -/
def utf8Bytes (c : Char) : List ℕ :=
  let n := c.toNat
  if n < 128 then [n]
  else if n < 2048 then [192 + n / 64, 128 + n % 64]
  else if n < 65536 then [224 + n / 4096, 128 + n / 64 % 64, 128 + n % 64]
  else [240 + n / 262144, 128 + n / 4096 % 64, 128 + n / 64 % 64, 128 + n % 64]

/-- UTF-8 bytes of a string. -/
def strBytes (s : String) : List ℕ := (s.toList.map utf8Bytes).flatten

/-- Percent-encoding of one byte: "%XX". -/
def percentByte (b : ℕ) : String :=
  String.mk ['%', hexDigitUpper (b / 16), hexDigitUpper (b % 16)]

/-- urllib.parse.quote_plus on one character: ASCII alphanumerics and
"_.-~" kept, space becomes "+", everything else percent-encoded per
UTF-8 byte. -/
def quotePlusChar (c : Char) : String :=
  if c.isAlphanum ∧ c.toNat < 128 then String.singleton c
  else if c = '_' ∨ c = '.' ∨ c = '-' ∨ c = '~' then String.singleton c
  else if c = ' ' then "+"
  else String.join ((utf8Bytes c).map percentByte)

/-- urllib.parse.quote_plus on a string. -/
def quotePlus (s : String) : String := String.join (s.toList.map quotePlusChar)

/-- Concatenate strings with a separator between consecutive elements. -/
def joinSep (sep : String) : List String → String
  | [] => ""
  | [x] => x
  | x :: y :: ys => x ++ sep ++ joinSep sep (y :: ys)

/-- urllib.parse.urlencode: "k1=v1&k2=v2..." with quote_plus applied to
keys and values (bybit_api.py:75). -/
def urlencode (params : List (String × String)) : String :=
  joinSep "&" (params.map (fun kv => quotePlus kv.1 ++ "=" ++ quotePlus kv.2))

/-- JSON escaping of one character: the characters that can occur in the
client's parameter strings need only quote and backslash escapes. -/
def jsonEscapeChar (c : Char) : String :=
  if c = '"' then "\\\""
  else if c = '\\' then "\\\\"
  else String.singleton c

/-- A JSON string literal. -/
def jsonString (s : String) : String :=
  "\"" ++ String.join (s.toList.map jsonEscapeChar) ++ "\""

/-- json.dumps of a string-valued dict with the default separators
(", " and ": "): the body requests sends for POST (bybit_api.py:170) and,
per the spec, the string POST signatures must sign over. -/
def jsonDumps (params : List (String × String)) : String :=
  "\x7b" ++
    joinSep ", " (params.map (fun kv => jsonString kv.1 ++ ": " ++ jsonString kv.2)) ++
    "\x7d"

/-- The string that BybitAPI._generate_signature actually signs
(bybit_api.py:69-80): timestamp + api_key + recv_window + query_string,
where query_string is urlencode(sorted params) — for GET and POST alike. -/
def generate_signature_payload (params : List (String × String))
    (timestamp : ℕ) (apiKey : String) (recvWindow : ℕ) : String :=
  let sortedParams := sortParams params
  let queryString := if sortedParams = [] then "" else urlencode sortedParams
  toString timestamp ++ apiKey ++ toString recvWindow ++ queryString

/-! Executable SHA-256 and HMAC-SHA256 (hashlib.sha256 / hmac.new), over
byte lists with 32-bit words as naturals reduced mod 2^32. -/

/-- Truncation to a 32-bit word. -/
def w32 (n : ℕ) : ℕ := n % 4294967296

/-- Right rotation of a 32-bit word. -/
def rotr32 (x n : ℕ) : ℕ := w32 (x / 2 ^ n + x % 2 ^ n * 2 ^ (32 - n))

/-- Bitwise complement of a 32-bit word. -/
def bnot32 (x : ℕ) : ℕ := Nat.xor x 4294967295

/-- SHA-256 Ch function. -/
def shaCh (x y z : ℕ) : ℕ := Nat.xor (Nat.land x y) (Nat.land (bnot32 x) z)

/-- SHA-256 Maj function. -/
def shaMaj (x y z : ℕ) : ℕ :=
  Nat.xor (Nat.xor (Nat.land x y) (Nat.land x z)) (Nat.land y z)

/-- SHA-256 big sigma 0. -/
def bsig0 (x : ℕ) : ℕ := Nat.xor (Nat.xor (rotr32 x 2) (rotr32 x 13)) (rotr32 x 22)

/-- SHA-256 big sigma 1. -/
def bsig1 (x : ℕ) : ℕ := Nat.xor (Nat.xor (rotr32 x 6) (rotr32 x 11)) (rotr32 x 25)

/-- SHA-256 small sigma 0. -/
def ssig0 (x : ℕ) : ℕ := Nat.xor (Nat.xor (rotr32 x 7) (rotr32 x 18)) (x / 8)

/-- SHA-256 small sigma 1. -/
def ssig1 (x : ℕ) : ℕ := Nat.xor (Nat.xor (rotr32 x 17) (rotr32 x 19)) (x / 1024)

/-- The SHA-256 round constants (decimal). -/
def shaK : List ℕ :=
  [1116352408, 1899447441, 3049323471, 3921009573, 961987163, 1508970993,
   2453635748, 2870763221, 3624381080, 310598401, 607225278, 1426881987,
   1925078388, 2162078206, 2614888103, 3248222580, 3835390401, 4022224774,
   264347078, 604807628, 770255983, 1249150122, 1555081692, 1996064986,
   2554220882, 2821834349, 2952996808, 3210313671, 3336571891, 3584528711,
   113926993, 338241895, 666307205, 773529912, 1294757372, 1396182291,
   1695183700, 1986661051, 2177026350, 2456956037, 2730485921, 2820302411,
   3259730800, 3345764771, 3516065817, 3600352804, 4094571909, 275423344,
   430227734, 506948616, 659060556, 883997877, 958139571, 1322822218,
   1537002063, 1747873779, 1955562222, 2024104815, 2227730452, 2361852424,
   2428436474, 2756734187, 3204031479, 3329325298]

/-- The SHA-256 initial hash value (decimal). -/
def shaH0 : List ℕ :=
  [1779033703, 3144134277, 1013904242, 2773480762,
   1359893119, 2600822924, 528734635, 1541459225]

/-- Big-endian byte encoding of n on k bytes. -/
def toBytesBE (k : ℕ) (n : ℕ) : List ℕ :=
  (List.range k).map (fun i => n / 2 ^ (8 * (k - 1 - i)) % 256)

/-- SHA-256 message padding: append 0x80, zero bytes, and the 64-bit
big-endian bit length, reaching a multiple of 64 bytes. -/
def padMessage (msg : List ℕ) : List ℕ :=
  let len := msg.length
  msg ++ [128] ++ List.replicate ((64 - (len + 9) % 64) % 64) 0 ++ toBytesBE 8 (8 * len)

/-- The first 16 words of the message schedule of one 64-byte block. -/
def initWords (block : List ℕ) : List ℕ :=
  (List.range 16).map (fun i =>
    block.getD (4 * i) 0 * 16777216 + block.getD (4 * i + 1) 0 * 65536 +
    block.getD (4 * i + 2) 0 * 256 + block.getD (4 * i + 3) 0)

/-- Extend the message schedule by t more words. -/
def extendSchedule (t : ℕ) (ws : List ℕ) : List ℕ :=
  match t with
  | 0 => ws
  | t + 1 =>
    let n := ws.length
    extendSchedule t (ws ++
      [w32 (ssig1 (ws.getD (n - 2) 0) + ws.getD (n - 7) 0 +
            ssig0 (ws.getD (n - 15) 0) + ws.getD (n - 16) 0)])

/-- One SHA-256 round on the working state [a,b,c,d,e,f,g,h]. -/
def roundStep (st : List ℕ) (kw : ℕ × ℕ) : List ℕ :=
  match st with
  | [a, b, c, d, e, f, g, h] =>
    let t1 := w32 (h + bsig1 e + shaCh e f g + kw.1 + kw.2)
    let t2 := w32 (bsig0 a + shaMaj a b c)
    [w32 (t1 + t2), a, b, c, w32 (d + t1), e, f, g]
  | _ => st

/-- SHA-256 compression of one 64-byte block into the hash state. -/
def compress (h : List ℕ) (block : List ℕ) : List ℕ :=
  let ws := extendSchedule 48 (initWords block)
  let st := (shaK.zip ws).foldl roundStep h
  (h.zip st).map (fun p => w32 (p.1 + p.2))

/-- Process the padded message 64 bytes at a time (the fuel argument only
bounds the recursion; call it with the message length). -/
def processBlocks (fuel : ℕ) (h : List ℕ) (l : List ℕ) : List ℕ :=
  match fuel with
  | 0 => h
  | fuel + 1 =>
    match l with
    | [] => h
    | _ => processBlocks fuel (compress h (l.take 64)) (l.drop 64)

/-- SHA-256 of a byte list, as a 32-byte list. -/
def sha256 (msg : List ℕ) : List ℕ :=
  let padded := padMessage msg
  ((processBlocks padded.length shaH0 padded).map (toBytesBE 4)).flatten

/-- HMAC-SHA256 (hmac.new(secret, msg, hashlib.sha256)), block size 64. -/
def hmacSha256 (key msg : List ℕ) : List ℕ :=
  let k0 := if 64 < key.length then sha256 key else key
  let k := k0 ++ List.replicate (64 - k0.length) 0
  sha256 ((k.map (fun b => Nat.xor b 92)) ++
    sha256 ((k.map (fun b => Nat.xor b 54)) ++ msg))

/-- Lowercase hex digest of a byte list (hexdigest()). -/
def toHexDigest (bytes : List ℕ) : String :=
  String.join (bytes.map (fun b => String.mk [hexDigitLower (b / 16), hexDigitLower (b % 16)]))

/-- BybitAPI._generate_signature (bybit_api.py:56-89): the hex HMAC-SHA256,
under the API secret, of the payload the code builds — which uses the
urlencoded query string for both GET and POST. -/
def generate_signature (apiSecret : String) (params : List (String × String))
    (timestamp : ℕ) (apiKey : String) (recvWindow : ℕ) : String :=
  toHexDigest (hmacSha256 (strBytes apiSecret)
    (strBytes (generate_signature_payload params timestamp apiKey recvWindow)))

/-- Modelled from the spec: the signature the spec mandates for POST
requests, signing over the sorted-key JSON body
(timestamp + apiKey + recvWindow + jsonBody). -/
def spec_post_signature (apiSecret : String) (params : List (String × String))
    (timestamp : ℕ) (apiKey : String) (recvWindow : ℕ) : String :=
  toHexDigest (hmacSha256 (strBytes apiSecret)
    (strBytes (toString timestamp ++ apiKey ++ toString recvWindow ++
      jsonDumps (sortParams params))))

/-- The parameters of the POST /v5/order/cancel-all request used as the
failing input (bybit_api.py:259-267). -/
def cancelAllParams : List (String × String) := [("category", "spot"), ("symbol", "BTCUSDT")]

/-! Concrete sample data used by the concrete-input theorems. -/

/-- A tracked New buy order at 1200. -/
def sampleOrder : ActiveOrder :=
  { symbol := "BTCUSDT", side := Side.Buy, price := 1200, qty := 1/100,
    status := OrderStatus.New }

/-- A test-mode bot on the example grid tracking one New order "o1". -/
def sampleState : BotState :=
  { symbol := "BTCUSDT", gridPrices := grid6, qty := 1/100, testMode := true,
    activeOrders := [("o1", sampleOrder)], fills := [], isRunning := true }

/-- The same bot in live (non-test) mode. -/
def sampleLiveState : BotState :=
  { symbol := "BTCUSDT", gridPrices := grid6, qty := 1/100, testMode := false,
    activeOrders := [("o1", sampleOrder)], fills := [], isRunning := true }

/-- The Filled event for order "o1". -/
def sampleEvent : OrderEvent :=
  { orderId := some "o1", side := Side.Buy, price := some 1200, qty := some (1/100) }

/-- Effects where the db write succeeds and place_order returns retCode 0
with exchange-assigned id "m1". -/
def sampleFx : Effects :=
  { addTradeOk := true, place := ApiOutcome.returned 0 "m1" }

/-! Theorems. -/

/-- The conflict scan returns true exactly when some active order occupies
the (price, side) pair. -/
theorem hasConflict_eq_true_iff (p : ℚ) (sd : Side) (l : List OrderView) :
    hasConflict p sd l = true ↔ ∃ o ∈ l, o.price = p ∧ o.side = sd := by
  induction l with
  | nil => simp [hasConflict]
  | cons o rest ih =>
    by_cases h : o.price = p ∧ o.side = sd
    · simp [hasConflict, h]
    · rw [hasConflict, if_neg h, ih]
      constructor
      · rintro ⟨o', ho', hp'⟩
        exact ⟨o', List.mem_cons_of_mem _ ho', hp'⟩
      · rintro ⟨o', ho', hp'⟩
        rcases List.mem_cons.mp ho' with rfl | ho'
        · exact absurd hp' h
        · exact ⟨o', ho', hp'⟩

/-- C4 (corrected): on the example grid, 1350 is not the midpoint of 1200
and 1400; the true midpoint is 1300, and there find_grid_level resolves the
tie to index 1 — the LOWER level 1200 (argmin first occurrence), refuting
the claim's "ties break toward the higher level". -/
theorem find_grid_level_midpoint_counterexample :
    ((1200 : ℚ) + 1400) / 2 = 1300 ∧
    find_grid_level (((1200 : ℚ) + 1400) / 2) grid6 = some 1 ∧
    (1350 : ℚ) ≠ ((1200 : ℚ) + 1400) / 2 := by
  refine ⟨by norm_num, ?_, by norm_num⟩
  norm_num [find_grid_level, argminAbs, ratAbs, grid6]

/-- C4 (amended): find_grid_level(1300) — the exact midpoint between 1200
and 1400 — returns the index of 1200 (ties break toward the lower level,
first occurrence), and find_grid_level(1350) returns the index of 1400,
which is strictly nearest. -/
theorem find_grid_level_examples :
    find_grid_level 1300 grid6 = some 1 ∧ find_grid_level 1350 grid6 = some 2 := by
  constructor <;> norm_num [find_grid_level, argminAbs, ratAbs, grid6]

/-- C3 (corrected): a Sell fill at 2000 does NOT map to none — the code
places the mirror Buy one level below, at 1800 (the Sell-side boundary is
the bottom of the ladder, not the top). -/
theorem mirror_sell_at_top_counterexample :
    calculate_mirror_order { side := Side.Sell, price := 2000 } grid6 (1/100) [] =
      some { side := Side.Buy, price := 1800, qty := 1/100 } := by
  simp +decide [calculate_mirror_order, find_grid_level, argminAbs, ratAbs, grid6,
    mirrorSide, mirrorTargetIdx, hasConflict]

/-- C3 (amended): on the example grid with no conflicting active orders,
a Buy fill at 1200 mirrors to Sell at 1400, a Sell fill at 1600 mirrors to
Buy at 1400, a Sell fill at 2000 mirrors to Buy at 1800, and a Buy fill at
2000 (the true boundary case) mirrors to none. -/
theorem mirror_examples_on_grid6 (q : ℚ) :
    calculate_mirror_order { side := Side.Buy, price := 1200 } grid6 q [] =
      some { side := Side.Sell, price := 1400, qty := q } ∧
    calculate_mirror_order { side := Side.Sell, price := 1600 } grid6 q [] =
      some { side := Side.Buy, price := 1400, qty := q } ∧
    calculate_mirror_order { side := Side.Sell, price := 2000 } grid6 q [] =
      some { side := Side.Buy, price := 1800, qty := q } ∧
    calculate_mirror_order { side := Side.Buy, price := 2000 } grid6 q [] = none := by
  refine ⟨?_, ?_, ?_, ?_⟩ <;>
    simp +decide [calculate_mirror_order, find_grid_level, argminAbs, ratAbs, grid6,
      mirrorSide, mirrorTargetIdx, hasConflict]

/-- C9 (confirmed): with a nonempty grid (find_grid_level succeeds),
calculate_mirror_order returns none exactly when the target index
(nearest+1 for a Buy fill, nearest-1 for a Sell fill) is outside the ladder
bounds, or some active order already occupies the target (price, side)
pair. -/
theorem calculate_mirror_order_none_iff (fo : FilledView) (g : List ℚ) (q : ℚ)
    (act : List OrderView) (idx : ℕ)
    (hidx : find_grid_level fo.price g = some idx) :
    calculate_mirror_order fo g q act = none ↔
      (mirrorTargetIdx fo.side idx < 0 ∨ (g.length : ℤ) ≤ mirrorTargetIdx fo.side idx) ∨
      ∃ o ∈ act, o.price = g.getD (mirrorTargetIdx fo.side idx).toNat 0 ∧
        o.side = mirrorSide fo.side := by
  unfold calculate_mirror_order
  rw [hidx]
  by_cases hb : mirrorTargetIdx fo.side idx < 0 ∨ (g.length : ℤ) ≤ mirrorTargetIdx fo.side idx
  · simp only [if_pos hb]
    exact iff_of_true trivial (Or.inl hb)
  · simp only [if_neg hb]
    by_cases hc : hasConflict (g.getD (mirrorTargetIdx fo.side idx).toNat 0)
        (mirrorSide fo.side) act = true
    · simp only [if_pos hc]
      exact iff_of_true trivial (Or.inr ((hasConflict_eq_true_iff _ _ _).mp hc))
    · simp only [if_neg hc]
      constructor
      · intro h
        exact absurd h (by simp)
      · rintro (h | h)
        · exact absurd h hb
        · exact absurd ((hasConflict_eq_true_iff _ _ _).mpr h) hc

/-- Witness for C9 at the concrete boundary input Buy fill at 2000 on the
example grid. -/
theorem calculate_mirror_order_none_iff_witness :
    calculate_mirror_order { side := Side.Buy, price := 2000 } grid6 1 [] = none ↔
      (mirrorTargetIdx Side.Buy 5 < 0 ∨ (grid6.length : ℤ) ≤ mirrorTargetIdx Side.Buy 5) ∨
      ∃ o ∈ ([] : List OrderView), o.price = grid6.getD (mirrorTargetIdx Side.Buy 5).toNat 0 ∧
        o.side = mirrorSide Side.Buy :=
  calculate_mirror_order_none_iff { side := Side.Buy, price := 2000 } grid6 1 [] 5
    (by norm_num [find_grid_level, argminAbs, ratAbs, grid6])

/-- C8 (corrected): the buy list is exactly the grid prices strictly below
midPrice and the sell list exactly those strictly above, each in grid index
order, and the counts satisfy
count(buys) + count(sells) = len(grid) - (number of grid prices equal to
midPrice) — the subtrahend is a count, not merely an indicator. -/
theorem calculate_initial_orders_spec (gridPrices : List ℚ) (midPrice qty : ℚ) :
    (calculate_initial_orders gridPrices midPrice qty).1
      = (gridPrices.filter (fun p => decide (p < midPrice))).map
          (fun p => { side := Side.Buy, price := p, qty := qty }) ∧
    (calculate_initial_orders gridPrices midPrice qty).2
      = (gridPrices.filter (fun p => decide (midPrice < p))).map
          (fun p => { side := Side.Sell, price := p, qty := qty }) ∧
    (calculate_initial_orders gridPrices midPrice qty).1.length
        + (calculate_initial_orders gridPrices midPrice qty).2.length
      = gridPrices.length - gridPrices.countP (fun p => decide (p = midPrice)) := by
  induction gridPrices with
  | nil => simp [calculate_initial_orders]
  | cons p ps ih =>
    obtain ⟨ih1, ih2, ih3⟩ := ih
    rw [ih1, ih2] at ih3
    simp only [List.length_map] at ih3
    have hcle := List.countP_le_length (p := fun q => decide (q = midPrice)) (l := ps)
    rcases lt_trichotomy p midPrice with h | h | h
    · have h2 : ¬ midPrice < p := not_lt.mpr h.le
      have h3 : p ≠ midPrice := ne_of_lt h
      refine ⟨?_, ?_, ?_⟩
      · simp [calculate_initial_orders, List.filter_cons, h, h2, h3, ih1]
      · simp [calculate_initial_orders, List.filter_cons, h, h2, h3, ih2]
      · simp only [calculate_initial_orders, if_pos h, List.filter_cons, List.countP_cons,
          List.length_cons, ih1, ih2, List.length_map]
        simp [h, h2, h3]
        omega
    · subst h
      refine ⟨?_, ?_, ?_⟩
      · simp [calculate_initial_orders, ih1]
      · simp [calculate_initial_orders, ih2]
      · simp [calculate_initial_orders, List.filter_cons, List.countP_cons, ih1, ih2]
        omega
    · have h2 : ¬ p < midPrice := not_lt.mpr h.le
      have h3 : p ≠ midPrice := ne_of_gt h
      refine ⟨?_, ?_, ?_⟩
      · simp [calculate_initial_orders, List.filter_cons, h, h2, h3, ih1]
      · simp [calculate_initial_orders, List.filter_cons, h, h2, h3, ih2]
      · simp only [calculate_initial_orders, List.filter_cons, List.countP_cons,
          List.length_cons, ih1, ih2, List.length_map]
        simp [h, h2, h3]
        omega

/-- Round-half-to-even never goes below the floor. -/
theorem roundHalfEvenZ_ge_floor (x : ℚ) : ⌊x⌋ ≤ roundHalfEvenZ x := by
  simp only [roundHalfEvenZ]
  split_ifs <;> omega

/-- Round-half-to-even never exceeds the floor plus one. -/
theorem roundHalfEvenZ_le_floor_add_one (x : ℚ) : roundHalfEvenZ x ≤ ⌊x⌋ + 1 := by
  simp only [roundHalfEvenZ]
  split_ifs <;> omega

/-- Round-half-to-even is monotone. -/
theorem roundHalfEvenZ_mono {x y : ℚ} (hxy : x ≤ y) :
    roundHalfEvenZ x ≤ roundHalfEvenZ y := by
  rcases lt_or_le ⌊x⌋ ⌊y⌋ with hf | hf
  · calc roundHalfEvenZ x ≤ ⌊x⌋ + 1 := roundHalfEvenZ_le_floor_add_one x
      _ ≤ ⌊y⌋ := hf
      _ ≤ roundHalfEvenZ y := roundHalfEvenZ_ge_floor y
  · have hfe : ⌊y⌋ = ⌊x⌋ := le_antisymm hf (Int.floor_le_floor hxy)
    simp only [roundHalfEvenZ]
    rw [hfe]
    split_ifs <;> first | omega | linarith

/-- np.round at a fixed number of decimals is monotone. -/
theorem np_round_mono (d : ℕ) {x y : ℚ} (h : x ≤ y) : np_round x d ≤ np_round y d := by
  unfold np_round
  have hp : (0 : ℚ) < (10 : ℚ) ^ d := by positivity
  gcongr
  exact_mod_cast roundHalfEvenZ_mono (mul_le_mul_of_nonneg_right h hp.le)

/-- C5 (amended): for low < high and levels at least 2, build_grid returns
exactly levels+1 prices that are NONDECREASING after rounding (strict
increase can fail when rounding collapses adjacent levels), whose first
element is low rounded at the selected tier and whose last element is high
rounded at the selected tier. -/
theorem build_grid_spec (low high : ℚ) (grids : ℕ)
    (h1 : low < high) (h2 : 2 ≤ grids) :
    ∃ g, build_grid low high grids = Except.ok g ∧
      g.length = grids + 1 ∧
      List.Chain' (· ≤ ·) g ∧
      g.head? = some (np_round low (roundDecimals (high - low))) ∧
      g.getLast? = some (np_round high (roundDecimals (high - low))) := by
  have hne : ¬ low ≥ high := not_le.mpr h1
  have hne2 : ¬ grids < 2 := not_lt.mpr h2
  have hg0 : (grids : ℚ) ≠ 0 := Nat.cast_ne_zero.mpr (by omega)
  have hstep : (0 : ℚ) ≤ (high - low) / (grids : ℚ) := by
    apply div_nonneg (by linarith)
    positivity
  refine ⟨_, by rw [build_grid, if_neg hne, if_neg hne2], ?_, ?_, ?_, ?_⟩
  · simp
  · rw [List.chain'_map, List.chain'_map]
    rw [List.chain'_range_succ]
    intro m hm
    apply np_round_mono
    unfold linspacePoint
    have : (m : ℚ) * ((high - low) / (grids : ℚ)) ≤
        ((m : ℚ) + 1) * ((high - low) / (grids : ℚ)) := by
      apply mul_le_mul_of_nonneg_right (by linarith) hstep
    push_cast
    linarith
  · rw [List.range_succ_eq_map]
    simp [linspacePoint]
  · rw [List.getLast?_map, List.getLast?_map]
    rw [List.range_succ, List.getLast?_concat]
    simp only [Option.map_some']
    congr 1
    unfold linspacePoint
    rw [mul_div_assoc']
    rw [mul_comm]
    rw [mul_div_assoc]
    rw [div_self hg0]
    ring

/-- Witness for C5 at the spec's end-to-end example (1000, 2000, 5). -/
theorem build_grid_spec_witness :
    ∃ g, build_grid 1000 2000 5 = Except.ok g ∧
      g.length = 5 + 1 ∧
      List.Chain' (· ≤ ·) g ∧
      g.head? = some (np_round 1000 (roundDecimals (2000 - 1000))) ∧
      g.getLast? = some (np_round 2000 (roundDecimals (2000 - 1000))) :=
  build_grid_spec 1000 2000 5 (by norm_num) (by norm_num)

/-- C5 (counterexample to the claim as stated): build_grid 0 0.00001 2 is
valid input (0 < 0.00001, levels 2), but all three points round to 0 at the
4-decimal tier, so the returned prices are NOT strictly increasing (and the
ends do not equal low and high before rounding either). -/
theorem build_grid_not_strictly_increasing :
    (0 : ℚ) < 1/100000 ∧ 2 ≤ 2 ∧
    build_grid 0 (1/100000) 2 = Except.ok [0, 0, 0] ∧
    ¬ List.Chain' (· < ·) ([0, 0, 0] : List ℚ) := by
  refine ⟨by norm_num, le_refl 2, ?_, by simp⟩
  have h1 : (List.range (2 + 1)).map (linspacePoint 0 (1/100000) 2) =
      [0, 1/200000, 1/100000] := by
    norm_num [linspacePoint, List.range_succ]
  have h2 : Int.fract ((1:ℚ)/20) = 1/20 := by norm_num [Int.fract]
  have h3 : Int.fract ((1:ℚ)/10) = 1/10 := by norm_num [Int.fract]
  rw [build_grid]
  rw [if_neg (by norm_num), if_neg (by norm_num), h1]
  norm_num [roundDecimals, np_round, roundHalfEvenZ, h2, h3]

/-- C8 (counterexample to the claim as stated): on the degenerate grid
[5, 5] with midPrice 5 no order is produced, so the counts sum to 0, not
len(grid) - 1 = 1 as the "1 if some grid price equals midPrice" formula
demands. -/
theorem initial_orders_duplicate_mid_counterexample :
    (calculate_initial_orders [5, 5] 5 1).1.length
        + (calculate_initial_orders [5, 5] 5 1).2.length = 0 ∧
    ([(5 : ℚ), 5].length - 1) = 1 := by
  constructor
  · norm_num [calculate_initial_orders]
  · simp


/-! Lemmas about the Python-dict model and the table projections. -/

/-- Looking up the key just set returns the value just set. -/
theorem dictLookup_dictSet_self {α : Type} (k : String) (v : α) (l : List (String × α)) :
    dictLookup k (dictSet k v l) = some v := by
  induction l with
  | nil => simp [dictSet, dictLookup]
  | cons kv rest ih =>
    by_cases h : kv.1 = k
    · simp [dictSet, dictLookup, h]
    · simp [dictSet, dictLookup, h, ih]

/-- Setting one key does not change the lookup of another. -/
theorem dictLookup_dictSet_of_ne {α : Type} {k k' : String} (hne : k ≠ k') (v : α)
    (l : List (String × α)) :
    dictLookup k' (dictSet k v l) = dictLookup k' l := by
  induction l with
  | nil => simp [dictSet, dictLookup, hne]
  | cons kv rest ih =>
    by_cases h : kv.1 = k
    · simp [dictSet, dictLookup, h, hne, ih]
    · simp only [dictSet, if_neg h, dictLookup]
      by_cases h2 : kv.1 = k'
      · simp [h2]
      · simp [h2, ih]

/-- The binding just set is an element of the table. -/
theorem mem_dictSet_self {α : Type} (k : String) (v : α) (l : List (String × α)) :
    (k, v) ∈ dictSet k v l := by
  induction l with
  | nil => simp [dictSet]
  | cons kv rest ih =>
    by_cases h : kv.1 = k <;> simp [dictSet, h, ih]

/-- A binding under a different key survives a set. -/
theorem mem_dictSet_of_ne {α : Type} {k' : String} {kv : String × α}
    {l : List (String × α)} (h : kv ∈ l) (hne : kv.1 ≠ k') (v' : α) :
    kv ∈ dictSet k' v' l := by
  induction l with
  | nil => cases h
  | cons a rest ih =>
    rcases List.mem_cons.mp h with rfl | h'
    · have ha : kv.1 ≠ k' := hne
      simp only [dictSet, if_neg ha]
      exact List.mem_cons_self _ _
    · by_cases ha : a.1 = k'
      · simp only [dictSet, if_pos ha]
        exact List.mem_cons_of_mem _ h'
      · simp only [dictSet, if_neg ha]
        exact List.mem_cons_of_mem _ (ih h')

/-- A New table entry appears (as its view) in the conflict-scan list. -/
theorem mem_activeNewViews {l : List (String × ActiveOrder)} {kv : String × ActiveOrder}
    (h : kv ∈ l) (hnew : kv.2.status = OrderStatus.New) :
    ({ side := kv.2.side, price := kv.2.price } : OrderView) ∈ activeNewViews l := by
  induction l with
  | nil => cases h
  | cons a rest ih =>
    rcases List.mem_cons.mp h with rfl | h'
    · simp only [activeNewViews, if_pos hnew]
      exact List.mem_cons_self _ _
    · simp only [activeNewViews]
      split_ifs with hs
      · exact List.mem_cons_of_mem _ (ih h')
      · exact ih h'

/-- A New table entry has its key in the cancel-request list. -/
theorem mem_newOrderIds {l : List (String × ActiveOrder)} {kv : String × ActiveOrder}
    (hmem : kv ∈ l) (hnew : kv.2.status = OrderStatus.New) : kv.1 ∈ newOrderIds l := by
  induction l with
  | nil => cases hmem
  | cons a rest ih =>
    rcases List.mem_cons.mp hmem with rfl | hmem'
    · simp only [newOrderIds, if_pos hnew]
      exact List.mem_cons_self _ _
    · simp only [newOrderIds]
      split_ifs with h
      · exact List.mem_cons_of_mem _ (ih hmem')
      · exact ih hmem'

/-- The test-mode mirror key "test_mirror_" + id never collides with id. -/
theorem testMirrorId_ne (oid : String) : "test_mirror_" ++ oid ≠ oid := by
  intro h
  have hlen := congrArg String.length h
  rw [String.length_append] at hlen
  have h12 : ("test_mirror_" : String).length = 12 := rfl
  omega

/-- On a tracked order with parseable price and qty and a successful db
write, the handler body is the mirror-placement tail applied to the state
with the order marked Filled and the fill recorded. -/
theorem handle_body_tracked (e : OrderEvent) (fx : Effects) (s : BotState)
    (oid : String) (ord : ActiveOrder) (p q : ℚ)
    (hid : e.orderId = some oid) (hord : dictLookup oid s.activeOrders = some ord)
    (hp : e.price = some p) (hq : e.qty = some q) (hdb : fx.addTradeOk = true) :
    handle_order_execution_body e fx s =
      placeMirrorStep fx oid (recordFillState (markFilledState s oid ord) e.side p q oid)
        (calculate_mirror_order { side := e.side, price := p } s.gridPrices s.qty
          (activeNewViews (dictSet oid { ord with status := OrderStatus.Filled } s.activeOrders))) := by
  obtain ⟨eid, eside, eprice, eqty⟩ := e
  simp only [OrderEvent.orderId] at hid
  simp only [OrderEvent.price] at hp
  simp only [OrderEvent.qty] at hq
  subst hid hp hq
  simp [handle_order_execution_body, hord, hdb, recordFillState, markFilledState]

/-- Case analysis of one handle_order_execution call on a tracked order:
exactly one fill is appended; the frame fields are unchanged; and either no
mirror entry was added and the table is the marked-Filled table, or the
mirror computation succeeded and exactly that entry was added under a key
other than the filled order id. -/
theorem handle_tracked_cases (e : OrderEvent) (fx : Effects) (s : BotState)
    (oid : String) (ord : ActiveOrder) (p q : ℚ)
    (hid : e.orderId = some oid) (hord : dictLookup oid s.activeOrders = some ord)
    (hp : e.price = some p) (hq : e.qty = some q) (hdb : fx.addTradeOk = true)
    (hfresh : ∀ c i, fx.place = ApiOutcome.returned c i → i ≠ oid) :
    (handle_order_execution e fx s).fills
        = s.fills ++ [{ symbol := s.symbol, side := e.side, price := p, qty := q, orderId := oid }] ∧
    (handle_order_execution e fx s).gridPrices = s.gridPrices ∧
    (handle_order_execution e fx s).qty = s.qty ∧
    (handle_order_execution e fx s).testMode = s.testMode ∧
    (handle_order_execution e fx s).symbol = s.symbol ∧
    ((mirrorsAdded e fx s = [] ∧
      (handle_order_execution e fx s).activeOrders
        = dictSet oid { ord with status := OrderStatus.Filled } s.activeOrders) ∨
     (∃ mo k, calculate_mirror_order { side := e.side, price := p } s.gridPrices s.qty
          (activeNewViews (dictSet oid { ord with status := OrderStatus.Filled } s.activeOrders))
            = some mo ∧
        k ≠ oid ∧
        mirrorsAdded e fx s
          = [{ symbol := s.symbol, side := mo.side, price := mo.price, qty := mo.qty,
               status := OrderStatus.New }] ∧
        (handle_order_execution e fx s).activeOrders
          = dictSet k
              ({ symbol := s.symbol, side := mo.side, price := mo.price, qty := mo.qty,
                 status := OrderStatus.New })
              (dictSet oid { ord with status := OrderStatus.Filled } s.activeOrders))) := by
  have hb := handle_body_tracked e fx s oid ord p q hid hord hp hq hdb
  unfold handle_order_execution mirrorsAdded
  rw [hb]
  cases hmo : calculate_mirror_order { side := e.side, price := p } s.gridPrices s.qty
      (activeNewViews (dictSet oid { ord with status := OrderStatus.Filled } s.activeOrders)) with
  | none =>
    simp [placeMirrorStep, recordFillState, markFilledState]
  | some mo =>
    by_cases ht : s.testMode = true
    · refine ⟨?_, ?_, ?_, ?_, ?_, Or.inr ⟨mo, "test_mirror_" ++ oid, rfl, testMirrorId_ne oid, ?_, ?_⟩⟩ <;>
        simp [placeMirrorStep, recordFillState, markFilledState, mirrorEntry, ht]
    · have ht' : s.testMode = false := by
        cases h : s.testMode
        · rfl
        · exact absurd h ht
      cases hpl : fx.place with
      | raised =>
        refine ⟨?_, ?_, ?_, ?_, ?_, Or.inl ⟨?_, ?_⟩⟩ <;>
          simp [placeMirrorStep, recordFillState, markFilledState, ht', hpl]
      | returned c i =>
        by_cases hc : c = 0
        · subst hc
          refine ⟨?_, ?_, ?_, ?_, ?_, Or.inr ⟨mo, i, rfl, hfresh 0 i hpl, ?_, ?_⟩⟩ <;>
            simp [placeMirrorStep, recordFillState, markFilledState, mirrorEntry, ht', hpl]
        · refine ⟨?_, ?_, ?_, ?_, ?_, Or.inl ⟨?_, ?_⟩⟩ <;>
            simp [placeMirrorStep, recordFillState, markFilledState, ht', hpl, hc]

/-- Elimination for a successful mirror computation: the nearest index
exists, the target index is in bounds, and the order is the mirror side and
target price at the requested qty. -/
theorem calculate_mirror_order_some_elim {fo : FilledView} {g : List ℚ} {q : ℚ}
    {act : List OrderView} {m : MirrorOrder}
    (h : calculate_mirror_order fo g q act = some m) :
    ∃ idx, find_grid_level fo.price g = some idx ∧
      ¬(mirrorTargetIdx fo.side idx < 0 ∨ (g.length : ℤ) ≤ mirrorTargetIdx fo.side idx) ∧
      m = { side := mirrorSide fo.side,
            price := g.getD (mirrorTargetIdx fo.side idx).toNat 0, qty := q } := by
  cases hidx : find_grid_level fo.price g with
  | none =>
    simp only [calculate_mirror_order, hidx] at h
    exact Option.noConfusion h
  | some idx =>
    simp only [calculate_mirror_order, hidx] at h
    split_ifs at h with hb hc
    all_goals first
      | exact Option.noConfusion h
      | exact ⟨idx, rfl, hb, (Option.some.inj h).symm⟩

/-- An active order already at the target (price, side) forces the mirror
computation to none. -/
theorem calculate_mirror_order_conflict_none {fo : FilledView} {g : List ℚ} {q : ℚ}
    {act : List OrderView} {idx : ℕ}
    (hidx : find_grid_level fo.price g = some idx)
    (h : ∃ o ∈ act, o.price = g.getD (mirrorTargetIdx fo.side idx).toNat 0 ∧
        o.side = mirrorSide fo.side) :
    calculate_mirror_order fo g q act = none := by
  simp only [calculate_mirror_order, hidx]
  split_ifs with hb hc
  all_goals try rfl
  exact absurd ((hasConflict_eq_true_iff _ _ _).mpr h) hc

/-- C1 (amended): delivering the same Filled event twice for a tracked
order (with parseable price/qty, both db writes succeeding, and exchange
ids distinct from the filled id) records one Fill PER DELIVERY — two in
total, because the filled order stays in the table and the duplicate passes
the known-order guard — while at most one mirror order is added to the
table across both deliveries (the second mirror is suppressed by the
conflict scan against the first). -/
theorem handle_order_execution_twice (e : OrderEvent) (fx1 fx2 : Effects) (s : BotState)
    (oid : String) (ord : ActiveOrder) (p q : ℚ)
    (hid : e.orderId = some oid) (hord : dictLookup oid s.activeOrders = some ord)
    (hp : e.price = some p) (hq : e.qty = some q)
    (hdb1 : fx1.addTradeOk = true) (hdb2 : fx2.addTradeOk = true)
    (hfresh1 : ∀ c i, fx1.place = ApiOutcome.returned c i → i ≠ oid)
    (hfresh2 : ∀ c i, fx2.place = ApiOutcome.returned c i → i ≠ oid) :
    (handle_order_execution e fx2 (handle_order_execution e fx1 s)).fills.length
        = s.fills.length + 2 ∧
    (mirrorsAdded e fx1 s).length
        + (mirrorsAdded e fx2 (handle_order_execution e fx1 s)).length ≤ 1 := by
  obtain ⟨hf1, hg1, hq1, ht1, hsym1, hcase1⟩ :=
    handle_tracked_cases e fx1 s oid ord p q hid hord hp hq hdb1 hfresh1
  have hord2 : dictLookup oid (handle_order_execution e fx1 s).activeOrders
      = some { ord with status := OrderStatus.Filled } := by
    rcases hcase1 with ⟨_, hAO⟩ | ⟨mo, k, hmo, hkne, hadd, hAO⟩
    · rw [hAO]; exact dictLookup_dictSet_self _ _ _
    · rw [hAO, dictLookup_dictSet_of_ne hkne]
      exact dictLookup_dictSet_self _ _ _
  obtain ⟨hf2, hg2, hq2, ht2, hsym2, hcase2⟩ :=
    handle_tracked_cases e fx2 (handle_order_execution e fx1 s) oid _ p q hid hord2 hp hq hdb2 hfresh2
  constructor
  · rw [hf2, hf1]
    simp only [List.append_assoc, List.length_append, List.length_cons, List.length_nil]
    try omega
  · rcases hcase1 with ⟨hadd1, hAO1⟩ | ⟨mo, k, hmo, hkne, hadd1, hAO1⟩
    · rcases hcase2 with ⟨hadd2, _⟩ | ⟨mo2, k2, hmo2, hkne2, hadd2, _⟩ <;> simp [hadd1, hadd2]
    · rcases hcase2 with ⟨hadd2, _⟩ | ⟨mo2, k2, hmo2, hkne2, hadd2, _⟩
      · simp [hadd1, hadd2]
      · exfalso
        obtain ⟨idx, hidx, hb, hmval⟩ := calculate_mirror_order_some_elim hmo
        set entry : ActiveOrder := { symbol := s.symbol, side := mo.side, price := mo.price, qty := mo.qty, status := OrderStatus.New } with hentry
        set ordF : ActiveOrder := { ord with status := OrderStatus.Filled } with hordF
        have hmemk : (k, entry) ∈ (handle_order_execution e fx1 s).activeOrders := by
          rw [hAO1]; exact mem_dictSet_self _ _ _
        have hmem2 : (k, entry)
            ∈ dictSet oid { ordF with status := OrderStatus.Filled }
                (handle_order_execution e fx1 s).activeOrders :=
          mem_dictSet_of_ne hmemk hkne _
        have hview : ({ side := mo.side, price := mo.price } : OrderView)
            ∈ activeNewViews (dictSet oid { ordF with status := OrderStatus.Filled }
                (handle_order_execution e fx1 s).activeOrders) := by
          simpa using mem_activeNewViews hmem2 rfl
        have hidx2 : find_grid_level (({ side := e.side, price := p } : FilledView).price)
            (handle_order_execution e fx1 s).gridPrices = some idx := by
          rw [hg1]; exact hidx
        have hprice : ({ side := mo.side, price := mo.price } : OrderView).price
            = (handle_order_execution e fx1 s).gridPrices.getD
                (mirrorTargetIdx ({ side := e.side, price := p } : FilledView).side idx).toNat 0 := by
          rw [hg1]
          simpa using congrArg MirrorOrder.price hmval
        have hside : ({ side := mo.side, price := mo.price } : OrderView).side
            = mirrorSide ({ side := e.side, price := p } : FilledView).side := by
          simpa using congrArg MirrorOrder.side hmval
        have hnone := calculate_mirror_order_conflict_none
          (q := (handle_order_execution e fx1 s).qty) hidx2
          ⟨{ side := mo.side, price := mo.price }, hview, hprice, hside⟩
        rw [hnone] at hmo2
        exact Option.noConfusion hmo2

set_option maxRecDepth 4000 in
/-- Witness for C1 at a concrete tracked buy order "o1" on the example
grid, with both deliveries using successful effects. -/
theorem handle_order_execution_twice_witness :
    (handle_order_execution sampleEvent sampleFx
        (handle_order_execution sampleEvent sampleFx sampleState)).fills.length
      = sampleState.fills.length + 2 ∧
    (mirrorsAdded sampleEvent sampleFx sampleState).length
      + (mirrorsAdded sampleEvent sampleFx
          (handle_order_execution sampleEvent sampleFx sampleState)).length ≤ 1 :=
  handle_order_execution_twice sampleEvent sampleFx sampleFx sampleState "o1" sampleOrder
    1200 (1/100) rfl (by simp [sampleState, dictLookup]) rfl rfl rfl rfl
    (fun c i h => by
      simp [sampleFx] at h
      rcases h with ⟨-, rfl⟩
      decide)
    (fun c i h => by
      simp [sampleFx] at h
      rcases h with ⟨-, rfl⟩
      decide)

/-- C1 (counterexample to the claim as stated): delivering the same Filled
event for "o1" twice leaves TWO Fill rows in the ledger, not exactly one. -/
theorem handle_twice_two_fills :
    (handle_order_execution sampleEvent sampleFx
        (handle_order_execution sampleEvent sampleFx sampleState)).fills.length = 2 ∧
    (2 : ℕ) ≠ 1 := by
  constructor
  · norm_num [handle_order_execution, handle_order_execution_body, sampleEvent, sampleFx,
      sampleState, sampleOrder, dictLookup, dictSet, markFilledState, recordFillState,
      placeMirrorStep, mirrorEntry, activeNewViews, calculate_mirror_order, find_grid_level,
      argminAbs, ratAbs, grid6, mirrorSide, mirrorTargetIdx, hasConflict]
  · decide

/-- C2 (amended): on a first-time Filled event for a tracked order in live
mode with a successful placement, the handler appends exactly one Fill,
MARKS the order Filled in the active-order table (the entry is NOT
removed), computes the mirror order against the updated table, and when the
mirror is present places it and adds it to the table under the
exchange-assigned id. -/
theorem handle_first_fill_spec (e : OrderEvent) (fx : Effects) (s : BotState)
    (oid newId : String) (ord : ActiveOrder) (p q : ℚ)
    (hid : e.orderId = some oid) (hord : dictLookup oid s.activeOrders = some ord)
    (hp : e.price = some p) (hq : e.qty = some q) (hdb : fx.addTradeOk = true)
    (htest : s.testMode = false)
    (hplace : fx.place = ApiOutcome.returned 0 newId) (hnid : newId ≠ oid) :
    (handle_order_execution e fx s).fills
        = s.fills ++ [{ symbol := s.symbol, side := e.side, price := p, qty := q, orderId := oid }] ∧
    dictLookup oid (handle_order_execution e fx s).activeOrders
        = some { ord with status := OrderStatus.Filled } ∧
    (calculate_mirror_order { side := e.side, price := p } s.gridPrices s.qty
        (activeNewViews (dictSet oid { ord with status := OrderStatus.Filled } s.activeOrders)) = none →
      (handle_order_execution e fx s).activeOrders
          = dictSet oid { ord with status := OrderStatus.Filled } s.activeOrders ∧
      mirrorsAdded e fx s = []) ∧
    (∀ mo, calculate_mirror_order { side := e.side, price := p } s.gridPrices s.qty
        (activeNewViews (dictSet oid { ord with status := OrderStatus.Filled } s.activeOrders)) = some mo →
      (handle_order_execution e fx s).activeOrders
          = dictSet newId
              ({ symbol := s.symbol, side := mo.side, price := mo.price, qty := mo.qty, status := OrderStatus.New })
              (dictSet oid { ord with status := OrderStatus.Filled } s.activeOrders) ∧
      mirrorsAdded e fx s
          = [{ symbol := s.symbol, side := mo.side, price := mo.price, qty := mo.qty, status := OrderStatus.New }] ∧
      dictLookup newId (handle_order_execution e fx s).activeOrders
          = some ({ symbol := s.symbol, side := mo.side, price := mo.price, qty := mo.qty, status := OrderStatus.New })) := by
  have hb := handle_body_tracked e fx s oid ord p q hid hord hp hq hdb
  unfold handle_order_execution mirrorsAdded
  rw [hb]
  cases hmo : calculate_mirror_order { side := e.side, price := p } s.gridPrices s.qty
      (activeNewViews (dictSet oid { ord with status := OrderStatus.Filled } s.activeOrders)) with
  | none =>
    simp [placeMirrorStep, recordFillState, markFilledState, dictLookup_dictSet_self]
  | some m =>
    simp [placeMirrorStep, recordFillState, markFilledState, htest, hplace, mirrorEntry,
      dictLookup_dictSet_self, dictLookup_dictSet_of_ne hnid]

set_option maxRecDepth 4000 in
/-- Witness for C2: the live-mode bot tracking "o1", with place_order
returning id "m1". -/
theorem handle_first_fill_spec_witness :
    (handle_order_execution sampleEvent sampleFx sampleLiveState).fills
        = sampleLiveState.fills ++
            [{ symbol := "BTCUSDT", side := Side.Buy, price := 1200,
               qty := 1/100, orderId := "o1" }] ∧
    dictLookup "o1" (handle_order_execution sampleEvent sampleFx sampleLiveState).activeOrders
        = some { sampleOrder with status := OrderStatus.Filled } ∧
    (calculate_mirror_order { side := Side.Buy, price := 1200 } sampleLiveState.gridPrices
        sampleLiveState.qty (activeNewViews (dictSet "o1"
          { sampleOrder with status := OrderStatus.Filled } sampleLiveState.activeOrders)) = none →
      (handle_order_execution sampleEvent sampleFx sampleLiveState).activeOrders
          = dictSet "o1" { sampleOrder with status := OrderStatus.Filled } sampleLiveState.activeOrders ∧
      mirrorsAdded sampleEvent sampleFx sampleLiveState = []) ∧
    (∀ mo, calculate_mirror_order { side := Side.Buy, price := 1200 } sampleLiveState.gridPrices
        sampleLiveState.qty (activeNewViews (dictSet "o1"
          { sampleOrder with status := OrderStatus.Filled } sampleLiveState.activeOrders)) = some mo →
      (handle_order_execution sampleEvent sampleFx sampleLiveState).activeOrders
          = dictSet "m1"
              ({ symbol := "BTCUSDT", side := mo.side, price := mo.price, qty := mo.qty,
                 status := OrderStatus.New })
              (dictSet "o1" { sampleOrder with status := OrderStatus.Filled } sampleLiveState.activeOrders) ∧
      mirrorsAdded sampleEvent sampleFx sampleLiveState
          = [{ symbol := "BTCUSDT", side := mo.side, price := mo.price, qty := mo.qty,
               status := OrderStatus.New }] ∧
      dictLookup "m1" (handle_order_execution sampleEvent sampleFx sampleLiveState).activeOrders
          = some ({ symbol := "BTCUSDT", side := mo.side, price := mo.price, qty := mo.qty,
                    status := OrderStatus.New })) :=
  handle_first_fill_spec sampleEvent sampleFx sampleLiveState "o1" "m1" sampleOrder
    1200 (1/100) rfl (by simp [sampleLiveState, dictLookup]) rfl rfl rfl rfl rfl (by decide)

/-- C2 (counterexample to the claim as stated): after handling the Filled
event, order "o1" is NOT removed from the active-order table — it is still
there, merely marked Filled. -/
theorem handle_keeps_filled_entry :
    dictLookup "o1" (handle_order_execution sampleEvent sampleFx sampleState).activeOrders
      = some { symbol := "BTCUSDT", side := Side.Buy, price := 1200, qty := 1/100,
               status := OrderStatus.Filled } := by
  norm_num [handle_order_execution, handle_order_execution_body, sampleEvent, sampleFx,
    sampleState, sampleOrder, dictLookup, dictSet, markFilledState, recordFillState,
    placeMirrorStep, mirrorEntry, activeNewViews, calculate_mirror_order, find_grid_level,
    argminAbs, ratAbs, grid6, mirrorSide, mirrorTargetIdx, hasConflict]

/-- C10 (confirmed): the caller-visible handler never propagates an
exception — for every event (including malformed fields) and every effect
outcome (db failure, API raise), handle_order_execution_run returns
Except.ok of the resulting state. -/
theorem handle_order_execution_total (e : OrderEvent) (fx : Effects) (s : BotState) :
    ∃ s', handle_order_execution_run e fx s = Except.ok s' ∧
      s' = handle_order_execution e fx s := by
  unfold handle_order_execution_run handle_order_execution
  cases handle_order_execution_body e fx s with
  | ok r => exact ⟨r.1, rfl, rfl⟩
  | error r => exact ⟨r.2.1, rfl, rfl⟩

/-- C7 (amended): stopping a running live-mode bot issues a cancel request
for exactly the orders with status New (best-effort: outcomes of the
cancels do not affect the result), clears the running flag, and leaves the
active-order table UNCHANGED — it is not cleared. -/
theorem stop_spec (s : BotState) (hrun : s.isRunning = true) (hlive : s.testMode = false) :
    (stop s).2 = newOrderIds s.activeOrders ∧
    (∀ kv ∈ s.activeOrders, kv.2.status = OrderStatus.New → kv.1 ∈ (stop s).2) ∧
    (stop s).1.activeOrders = s.activeOrders ∧
    (stop s).1.isRunning = false := by
  unfold stop
  rw [hrun, hlive]
  simp only [Bool.true_eq_false, if_neg, if_false]
  refine ⟨rfl, ?_, rfl, rfl⟩
  intro kv hmem hnew
  exact mem_newOrderIds hmem hnew

/-- Witness for C7 at the live-mode sample bot. -/
theorem stop_spec_witness :
    (stop sampleLiveState).2 = newOrderIds sampleLiveState.activeOrders ∧
    (∀ kv ∈ sampleLiveState.activeOrders, kv.2.status = OrderStatus.New →
      kv.1 ∈ (stop sampleLiveState).2) ∧
    (stop sampleLiveState).1.activeOrders = sampleLiveState.activeOrders ∧
    (stop sampleLiveState).1.isRunning = false :=
  stop_spec sampleLiveState rfl rfl

/-- C7 (counterexample to the claim as stated): after stop() the
active-order table of the sample bot is NOT empty. -/
theorem stop_not_cleared :
    (stop sampleLiveState).1.activeOrders ≠ [] := by
  simp [stop, sampleLiveState]

set_option maxRecDepth 100000 in
/-- C6 (code bug): at the POST /v5/order/cancel-all input the code signs
timestamp + apiKey + recvWindow + urlencode(sorted params) — not the
sorted-key JSON body that the spec (and the code's own comment at
bybit_api.py:73, and the Bybit V5 documentation) mandate; the two HMAC
digests differ. -/
theorem post_signature_signs_urlencoded_not_json :
    generate_signature "secret" cancelAllParams 1700000000000 "key" 5000
        = "b10da919011eb90cc175e8660b7cd78a3f9c2b8aee6b95a44d78990cd76b64f3" ∧
    generate_signature_payload cancelAllParams 1700000000000 "key" 5000
        = "1700000000000key5000category=spot&symbol=BTCUSDT" ∧
    jsonDumps (sortParams cancelAllParams)
        = "\x7b\"category\": \"spot\", \"symbol\": \"BTCUSDT\"\x7d" ∧
    spec_post_signature "secret" cancelAllParams 1700000000000 "key" 5000
        = "fdec0e0dac104a68038e54295bf0e914e5f2b3b1d3c3399e0f672413ae8fc8ac" ∧
    generate_signature "secret" cancelAllParams 1700000000000 "key" 5000
        ≠ spec_post_signature "secret" cancelAllParams 1700000000000 "key" 5000 := by
  refine ⟨?_, ?_, ?_, ?_, ?_⟩ <;> decide

end GridBybit
